import Mathlib

/-
Verification of the karma repository module
(`app/db/repositories/karma_repository.py`).

Shallow embedding. The MongoDB collection `karma_transactions` is a list of
documents together with the driver's id-generator state; each repository
method is a function from the store (plus its explicit inputs) to the pair
(result, store after the call). Numbers are modelled exactly: `points` as an
integer-valued exact number (the claims under verification concern sums,
grouping and ordering, not rounding), timestamps as UTC microseconds since
the epoch (the resolution of Python `datetime`). The external enum
`KarmaActionType` is modelled by its string value. MongoDB query operators
are given their documented semantics: `$match` filters, `$gte`/`$lte` are
inclusive comparisons, `$group` partitions by key with `$sum` and `$first`
accumulators, `sort(key, -1)` sorts descending (tie order unspecified by the
store; any correct sort models it), `$limit` truncates and rejects
non-positive arguments.
-/

namespace KarmaApi

/-- Denormalized user snapshot embedded in every transaction
(`UserReference`: a stable `id` plus display metadata). -/
structure UserReference where
  id : String
  name : String
deriving DecidableEq, Inhabited

/-- `KarmaTransactionCreate`: the caller-supplied payload, missing only the
server-assigned fields `_id`, `created_at`, `updated_at`. -/
structure KarmaTransactionCreate where
  user : UserReference
  points : Int
  action_type : String
  domain : String
deriving DecidableEq

/-- A persisted `KarmaTransaction` document of the `karma_transactions`
collection. -/
structure KarmaTransaction where
  id : Nat
  user : UserReference
  points : Int
  action_type : String
  domain : String
  created_at : Nat
  updated_at : Nat
deriving DecidableEq

/-- The `karma_transactions` collection plus the driver's id-generator
state: `insert_one` assigns the `_id` values from `nextId` (modelling fresh
ObjectIds). -/
structure Store where
  docs : List KarmaTransaction
  nextId : Nat
deriving DecidableEq

/-- `create_transaction` (lines 21-33): stamps `created_at` with the first
`datetime.now(UTC)` reading `t1` and `updated_at` with the second reading
`t2` (lines 25-26 are two distinct clock calls), inserts the document, and
returns it with the assigned `_id`. -/
def create_transaction (s : Store) (tx : KarmaTransactionCreate) (t1 t2 : Nat) :
    KarmaTransaction × Store :=
  let d : KarmaTransaction :=
    { id := s.nextId
      user := tx.user
      points := tx.points
      action_type := tx.action_type
      domain := tx.domain
      created_at := t1
      updated_at := t2 }
  (d, { docs := s.docs ++ [d], nextId := s.nextId + 1 })

/-- Semantics of the optional `created_at` range clause built at lines
44-49 / 73-78 / 98-103 / 124-129: `$gte start_date` when `start_date` is
supplied, `$lte end_date` when `end_date` is supplied (a `datetime` is
always truthy in Python, so supplied exactly means non-`None`). Both
comparisons are inclusive. -/
def dateMatch (start_date end_date : Option Nat) (t : Nat) : Bool :=
  (match start_date with
   | none => true
   | some sd => decide (sd ≤ t)) &&
  (match end_date with
   | none => true
   | some ed => decide (t ≤ ed))

/-- The `$match` predicate of `get_user_karma` / `get_user_actions`:
`user.id == user_id` plus the optional `created_at` range. -/
def karmaMatch (user_id : String) (start_date end_date : Option Nat)
    (d : KarmaTransaction) : Bool :=
  d.user.id == user_id && dateMatch start_date end_date d.created_at

/-- The `$match` predicate of the by-domain variants: additionally
`domain == domain` (exact match). -/
def karmaDomainMatch (user_id domain : String) (start_date end_date : Option Nat)
    (d : KarmaTransaction) : Bool :=
  d.user.id == user_id && d.domain == domain &&
    dateMatch start_date end_date d.created_at

/-- `get_user_karma` (lines 35-58): `$match` then `$group` with
`$sum: "$points"`. The group stage emits no document for an empty input,
so the code returns `result[0]["total"] if result else 0.0`. -/
def get_user_karma (s : Store) (user_id : String)
    (start_date end_date : Option Nat) : Int × Store :=
  let matched := s.docs.filter (karmaMatch user_id start_date end_date)
  (if matched.isEmpty then 0 else (matched.map (fun d => d.points)).sum, s)

/-- `get_user_karma_by_domain` (lines 60-87): same aggregation with the
extra `domain` equality in the match stage. -/
def get_user_karma_by_domain (s : Store) (user_id domain : String)
    (start_date end_date : Option Nat) : Int × Store :=
  let matched := s.docs.filter (karmaDomainMatch user_id domain start_date end_date)
  (if matched.isEmpty then 0 else (matched.map (fun d => d.points)).sum, s)

/-- Descending-`created_at` order used by `.sort("created_at", -1)`. -/
def createdDesc (a b : KarmaTransaction) : Prop :=
  b.created_at ≤ a.created_at

instance : DecidableRel createdDesc :=
  fun a b => inferInstanceAs (Decidable (b.created_at ≤ a.created_at))

instance : IsTotal KarmaTransaction createdDesc :=
  ⟨fun a b => Nat.le_total b.created_at a.created_at⟩

instance : IsTrans KarmaTransaction createdDesc :=
  ⟨fun _ _ _ hab hbc => le_trans hbc hab⟩

/-- `get_user_actions` (lines 89-109): `find(query).sort("created_at", -1)`,
entire matching set materialized. The store's sort is modelled by a correct
sort for the descending order (tie order is unspecified by the store). -/
def get_user_actions (s : Store) (user_id : String)
    (start_date end_date : Option Nat) : List KarmaTransaction × Store :=
  let matched := s.docs.filter (karmaMatch user_id start_date end_date)
  (List.insertionSort createdDesc matched, s)

/-- `get_user_actions_by_domain` (lines 111-135): same with the extra
`domain` equality. -/
def get_user_actions_by_domain (s : Store) (user_id domain : String)
    (start_date end_date : Option Nat) : List KarmaTransaction × Store :=
  let matched := s.docs.filter (karmaDomainMatch user_id domain start_date end_date)
  (List.insertionSort createdDesc matched, s)

/-- Microseconds per calendar day (`datetime` has microsecond resolution). -/
def usPerDay : Nat := 86400000000

/-- `datetime.combine(date.date(), datetime.min.time())` (line 145):
midnight `00:00:00.000000` of the day containing `t`. -/
def start_of_day (t : Nat) : Nat := t - t % usPerDay

/-- `datetime.combine(date.date(), datetime.max.time())` (line 146):
`23:59:59.999999` of the day containing `t`. -/
def end_of_day (t : Nat) : Nat := start_of_day t + (usPerDay - 1)

/-- The query of `get_user_actions_today` (lines 149-156): `user.id`,
`action_type`, and `created_at` within `[start_of_day, end_of_day]`,
both bounds inclusive (`$gte` / `$lte`). -/
def todayMatch (user_id action_type : String) (date : Nat)
    (d : KarmaTransaction) : Bool :=
  d.user.id == user_id && d.action_type == action_type &&
    (decide (start_of_day date ≤ d.created_at) &&
      decide (d.created_at ≤ end_of_day date))

/-- `get_user_actions_today` (lines 137-162): plain `find`, no sort. -/
def get_user_actions_today (s : Store) (user_id action_type : String)
    (date : Nat) : List KarmaTransaction × Store :=
  (s.docs.filter (todayMatch user_id action_type date), s)

/-- One output document of the `$group` stage of `get_top_users`:
`_id = user.id`, `total_points = $sum points`, `user = $first user`. -/
structure TopGroup where
  id : String
  total_points : Int
  user : UserReference
deriving DecidableEq

/-- The match stage of `get_top_users` (lines 171-173): `if domain:` adds
the `domain` equality, so a `None` or empty-string (falsy) domain applies
no filter at all. -/
def topMatch (domain : Option String) (d : KarmaTransaction) : Bool :=
  match domain with
  | none => true
  | some dm => if dm.isEmpty then true else d.domain == dm

/-- The `$group` output document for the key `uid`: the sum of `points`
over the fiber, and the `$first` `user` snapshot, i.e. the snapshot of the
first document with that key in the store's scan order. -/
def groupFor (l : List KarmaTransaction) (uid : String) : TopGroup :=
  { id := uid
    total_points := ((l.filter (fun d => d.user.id == uid)).map (fun d => d.points)).sum
    user :=
      match l.find? (fun d => d.user.id == uid) with
      | some d => d.user
      | none => default }

/-- The `$group` stage (lines 178-182): one output document per distinct
`user.id` occurring in the matched input. The store leaves the output order
of `$group` unspecified; the model fixes one definite enumeration of the
distinct keys. -/
def groupByUser (l : List KarmaTransaction) : List TopGroup :=
  ((l.map (fun d => d.user.id)).dedup).map (groupFor l)

deriving instance DecidableEq for Except

/-- Descending-`total_points` order used by the `$sort` stage at line 183. -/
def totalDesc (a b : TopGroup) : Prop :=
  b.total_points ≤ a.total_points

instance : DecidableRel totalDesc :=
  fun a b => inferInstanceAs (Decidable (b.total_points ≤ a.total_points))

instance : IsTotal TopGroup totalDesc :=
  ⟨fun a b => Int.le_total b.total_points a.total_points⟩

instance : IsTrans TopGroup totalDesc :=
  ⟨fun _ _ _ hab hbc => le_trans hbc hab⟩

/-- `get_top_users` (lines 164-188): match, group by `user.id`, sort by
`total_points` descending, `$limit limit`. The store's `$limit` stage
rejects a non-positive argument ("the limit must be positive"), so the call
surfaces that error instead of returning a sequence. -/
def get_top_users (s : Store) (limit : Int) (domain : Option String) :
    Except String (List TopGroup) × Store :=
  let groups := groupByUser (s.docs.filter (topMatch domain))
  let sorted := List.insertionSort totalDesc groups
  (if limit ≤ 0 then Except.error "the limit must be positive"
   else Except.ok (sorted.take limit.toNat), s)

/-- The domains in which a user has at least one persisted transaction,
without repetition. -/
def userDomains (s : Store) (user_id : String) : List String :=
  ((s.docs.filter (fun d => d.user.id == user_id)).map (fun d => d.domain)).dedup

/-! ### Sample data used by witnesses and counterexamples -/

/-- A user snapshot with display name equal to the id. -/
def uref (n : String) : UserReference := ⟨n, n⟩

/-- A sample persisted transaction. -/
def sampleDoc (i : Nat) (uid : String) (pts : Int) (dm : String) (t : Nat) :
    KarmaTransaction :=
  { id := i, user := uref uid, points := pts, action_type := "LIKE"
    domain := dm, created_at := t, updated_at := t }

/-- Five users with pairwise-distinct totals (one transaction each). -/
def topStore : Store :=
  { docs := [sampleDoc 1 "u1" 10 "x" 1, sampleDoc 2 "u2" 20 "x" 2,
             sampleDoc 3 "u3" 30 "x" 3, sampleDoc 4 "u4" 40 "x" 4,
             sampleDoc 5 "u5" 50 "y" 5],
    nextId := 6 }

/-- A sample creation payload. -/
def sampleCreate : KarmaTransactionCreate :=
  { user := uref "u1", points := 5, action_type := "LIKE", domain := "x" }

/-- Reference instant `172800000500`: day 2 of the epoch, 500 µs after
midnight. Its day runs from `172800000000` to `259199999999`. -/
def dayRef : Nat := 172800000000 + 500

/-- A store holding one transaction at the last microsecond
`23:59:59.999999` of `dayRef`'s day and one at exactly midnight of the
next day. -/
def dayStore : Store :=
  { docs := [sampleDoc 1 "u1" 1 "x" 259199999999,
             sampleDoc 2 "u1" 1 "x" 259200000000],
    nextId := 3 }

/-! ### Helper lemmas -/

/-- The value computed by `get_user_karma` is the sum of `points` over the
matched documents (the empty-result branch returns the empty sum). -/
lemma get_user_karma_fst (s : Store) (uid : String) (sd ed : Option Nat) :
    (get_user_karma s uid sd ed).1 =
      ((s.docs.filter (karmaMatch uid sd ed)).map (fun d => d.points)).sum := by
  dsimp only [get_user_karma]
  by_cases h : (s.docs.filter (karmaMatch uid sd ed)).isEmpty = true
  · rw [if_pos h, List.isEmpty_iff.mp h]
    rfl
  · rw [if_neg h]

/-- Same computation for the by-domain variant. -/
lemma get_user_karma_by_domain_fst (s : Store) (uid dm : String) (sd ed : Option Nat) :
    (get_user_karma_by_domain s uid dm sd ed).1 =
      ((s.docs.filter (karmaDomainMatch uid dm sd ed)).map (fun d => d.points)).sum := by
  dsimp only [get_user_karma_by_domain]
  by_cases h : (s.docs.filter (karmaDomainMatch uid dm sd ed)).isEmpty = true
  · rw [if_pos h, List.isEmpty_iff.mp h]
    rfl
  · rw [if_neg h]

/-- With no date bounds the match predicate is a pure `user.id` equality. -/
lemma karmaMatch_none (uid : String) :
    karmaMatch uid none none = fun d => d.user.id == uid := by
  funext d
  simp [karmaMatch, dateMatch]

/-- With no date bounds the by-domain match is the `user.id` filter
composed with a `domain` filter. -/
lemma filter_karmaDomainMatch_none (s : Store) (uid dm : String) :
    s.docs.filter (karmaDomainMatch uid dm none none) =
      (s.docs.filter (fun d => d.user.id == uid)).filter (fun d => d.domain == dm) := by
  rw [List.filter_filter]
  have h : karmaDomainMatch uid dm none none =
      fun a => (a.domain == dm) && (a.user.id == uid) := by
    funext d
    cases hu : (d.user.id == uid) <;> cases hd : (d.domain == dm) <;>
      simp [karmaDomainMatch, dateMatch, hu, hd]
  rw [h]

/-- Summing `if x = dm then c else 0` over a list of keys not containing
`x` gives `0`. -/
lemma sum_ite_of_not_mem (x : String) (c : Int) (D : List String) (hx : x ∉ D) :
    (D.map (fun dm => if x = dm then c else 0)).sum = 0 := by
  apply List.sum_eq_zero
  intro y hy
  rcases List.mem_map.mp hy with ⟨dm, hdm, rfl⟩
  rw [if_neg]
  intro h
  exact hx (h ▸ hdm)

/-- Summing `if x = dm then c else 0` over a duplicate-free list of keys
containing `x` gives `c`. -/
lemma sum_ite_of_nodup_mem (x : String) (c : Int) :
    ∀ D : List String, D.Nodup → x ∈ D →
      (D.map (fun dm => if x = dm then c else 0)).sum = c := by
  intro D
  induction D with
  | nil =>
    intro _ hmem
    exact absurd hmem (List.not_mem_nil x)
  | cons d D ih =>
    intro hnd hmem
    rw [List.map_cons, List.sum_cons]
    by_cases hx : x = d
    · subst hx
      rw [if_pos rfl, sum_ite_of_not_mem x c D (List.nodup_cons.mp hnd).1]
      exact add_zero c
    · rw [if_neg hx, ih (List.nodup_cons.mp hnd).2
        ((List.mem_cons.mp hmem).resolve_left hx), zero_add]

/-- Partitioning a list into the fibers of a key function and summing the
fibers fiber-by-fiber gives the total sum, for any duplicate-free key list
covering every element. -/
lemma sum_fiberwise {α : Type} (key : α → String) (val : α → Int) :
    ∀ (l : List α) (D : List String), D.Nodup → (∀ a ∈ l, key a ∈ D) →
      (D.map (fun dm => ((l.filter (fun a => key a == dm)).map val).sum)).sum =
        (l.map val).sum := by
  intro l
  induction l with
  | nil =>
    intro D _ _
    apply List.sum_eq_zero
    intro y hy
    rcases List.mem_map.mp hy with ⟨dm, _, rfl⟩
    rfl
  | cons a l ih =>
    intro D hnd hmem
    have hsplit :
        D.map (fun dm => (((a :: l).filter (fun x => key x == dm)).map val).sum) =
          D.map (fun dm => (if key a = dm then val a else 0) +
            ((l.filter (fun x => key x == dm)).map val).sum) := by
      apply List.map_congr_left
      intro dm _
      rw [List.filter_cons]
      by_cases h : key a = dm
      · rw [if_pos (by simpa using h), if_pos h, List.map_cons, List.sum_cons]
      · rw [if_neg (by simpa using h), if_neg h, zero_add]
    rw [hsplit, List.sum_map_add,
      sum_ite_of_nodup_mem (key a) (val a) D hnd (hmem a (List.mem_cons_self a l)),
      ih D hnd (fun x hx => hmem x (List.mem_cons_of_mem a hx)),
      List.map_cons, List.sum_cons]

/-! ### Claims -/

/-- Claim C1: for every store state and every `(user_id, start_date,
end_date)` — and additionally any domain for the by-domain variant — such
that no persisted transaction matches the filter, `get_user_karma` and
`get_user_karma_by_domain` return exactly `0.0`. Both are total functions
of the store, so no error is raised. -/
theorem get_user_karma_empty_zero (s : Store) (uid dm : String)
    (sd ed : Option Nat) :
    (s.docs.filter (karmaMatch uid sd ed) = [] →
      (get_user_karma s uid sd ed).1 = 0) ∧
    (s.docs.filter (karmaDomainMatch uid dm sd ed) = [] →
      (get_user_karma_by_domain s uid dm sd ed).1 = 0) := by
  constructor
  · intro h
    rw [get_user_karma_fst, h]
    rfl
  · intro h
    rw [get_user_karma_by_domain_fst, h]
    rfl

/-- Witness for claim C1 on a concrete store: user `alice` has no
transactions at all, and user `u1` has none in domain `zzz`. -/
theorem get_user_karma_empty_zero_witness :
    topStore.docs.filter (karmaMatch "alice" none none) = [] ∧
    (get_user_karma topStore "alice" none none).1 = 0 ∧
    topStore.docs.filter (karmaDomainMatch "u1" "zzz" none none) = [] ∧
    (get_user_karma_by_domain topStore "u1" "zzz" none none).1 = 0 :=
  ⟨by decide,
   (get_user_karma_empty_zero topStore "alice" "zzz" none none).1 (by decide),
   by decide,
   (get_user_karma_empty_zero topStore "u1" "zzz" none none).2 (by decide)⟩

/-- Claim C2: the date-range filter shared by `get_user_karma`,
`get_user_karma_by_domain`, `get_user_actions` and
`get_user_actions_by_domain` is inclusive on both bounds — a transaction of
the right user whose `created_at` equals the supplied `start_date` exactly
(and is within the end bound), or equals the supplied `end_date` exactly
(and is within the start bound), is in the matching set of all four. -/
theorem date_filter_inclusive_bounds (s : Store) (uid dm : String)
    (sd ed : Nat) (d : KarmaTransaction) (hmem : d ∈ s.docs)
    (huser : d.user.id = uid)
    (hb : (d.created_at = sd ∧ d.created_at ≤ ed) ∨
          (sd ≤ d.created_at ∧ d.created_at = ed)) :
    d ∈ s.docs.filter (karmaMatch uid (some sd) (some ed)) ∧
    d ∈ (get_user_actions s uid (some sd) (some ed)).1 ∧
    (d.domain = dm →
      d ∈ s.docs.filter (karmaDomainMatch uid dm (some sd) (some ed)) ∧
      d ∈ (get_user_actions_by_domain s uid dm (some sd) (some ed)).1) := by
  have hrange : sd ≤ d.created_at ∧ d.created_at ≤ ed := by
    rcases hb with ⟨h1, h2⟩ | ⟨h1, h2⟩
    · exact ⟨le_of_eq h1.symm, h2⟩
    · exact ⟨h1, le_of_eq h2⟩
  have hmatch : karmaMatch uid (some sd) (some ed) d = true := by
    simp [karmaMatch, dateMatch, huser, hrange.1, hrange.2]
  have h1 : d ∈ s.docs.filter (karmaMatch uid (some sd) (some ed)) :=
    List.mem_filter.mpr ⟨hmem, hmatch⟩
  refine ⟨h1, ?_, ?_⟩
  · exact (List.mem_insertionSort createdDesc).mpr h1
  · intro hdom
    have hmatch2 : karmaDomainMatch uid dm (some sd) (some ed) d = true := by
      simp [karmaDomainMatch, dateMatch, huser, hdom, hrange.1, hrange.2]
    have h2 : d ∈ s.docs.filter (karmaDomainMatch uid dm (some sd) (some ed)) :=
      List.mem_filter.mpr ⟨hmem, hmatch2⟩
    exact ⟨h2, (List.mem_insertionSort createdDesc).mpr h2⟩

/-- Witness for claim C2: the transaction of `u1` created at instant `1`
appears in `get_user_actions` over the range `[1, 5]`, whose start bound it
hits exactly. -/
theorem date_filter_inclusive_bounds_witness :
    sampleDoc 1 "u1" 10 "x" 1 ∈ (get_user_actions topStore "u1" (some 1) (some 5)).1 :=
  (date_filter_inclusive_bounds topStore "u1" "x" 1 5 (sampleDoc 1 "u1" 10 "x" 1)
    (by decide) (by decide) (Or.inl ⟨by decide, by decide⟩)).2.1

/-- Claim C3: for every store state and inputs, the sequences returned by
`get_user_actions` and `get_user_actions_by_domain` are sorted
non-increasing by `created_at`: each adjacent pair satisfies
`earlier.created_at ≥ later.created_at`. -/
theorem get_user_actions_sorted_desc (s : Store) (uid dm : String)
    (sd ed : Option Nat) :
    List.Chain' (fun a b => b.created_at ≤ a.created_at)
      (get_user_actions s uid sd ed).1 ∧
    List.Chain' (fun a b => b.created_at ≤ a.created_at)
      (get_user_actions_by_domain s uid dm sd ed).1 := by
  constructor
  · exact List.Pairwise.chain' (List.sorted_insertionSort createdDesc _)
  · exact List.Pairwise.chain' (List.sorted_insertionSort createdDesc _)

/-- Claim C4: `get_user_actions_today` returns exactly the persisted
transactions with the given user, the given action type, and `created_at`
inside the closed interval from `00:00:00.000000` to `23:59:59.999999`
(i.e. `start_of_day + 86399999999` microseconds) of the reference date's
day. In particular a transaction at exactly the last microsecond of the day
is included, and one at exactly midnight of the next day
(`start_of_day + 86400000000`) is excluded. -/
theorem get_user_actions_today_day_bounds (s : Store) (uid atype : String)
    (date : Nat) (d : KarmaTransaction) :
    (d ∈ (get_user_actions_today s uid atype date).1 ↔
      (d ∈ s.docs ∧ d.user.id = uid ∧ d.action_type = atype ∧
        start_of_day date ≤ d.created_at ∧ d.created_at ≤ end_of_day date)) ∧
    end_of_day date = start_of_day date + 86399999999 ∧
    (d ∈ s.docs → d.user.id = uid → d.action_type = atype →
      d.created_at = end_of_day date →
      d ∈ (get_user_actions_today s uid atype date).1) ∧
    (d.created_at = start_of_day date + 86400000000 →
      d ∉ (get_user_actions_today s uid atype date).1) := by
  have hiff : d ∈ (get_user_actions_today s uid atype date).1 ↔
      (d ∈ s.docs ∧ d.user.id = uid ∧ d.action_type = atype ∧
        start_of_day date ≤ d.created_at ∧ d.created_at ≤ end_of_day date) := by
    simp [get_user_actions_today, todayMatch, List.mem_filter, and_assoc]
  have hend : end_of_day date = start_of_day date + 86399999999 := by
    norm_num [end_of_day, usPerDay]
  refine ⟨hiff, hend, ?_, ?_⟩
  · intro h1 h2 h3 h4
    refine hiff.mpr ⟨h1, h2, h3, ?_, le_of_eq h4⟩
    rw [h4, hend]
    exact Nat.le_add_right _ _
  · intro h4 hc
    have h5 := (hiff.mp hc).2.2.2.2
    omega

/-- Witness for claim C4 on a concrete store: the transaction at
`23:59:59.999999` of the reference day is returned, the one at the next
midnight is not. -/
theorem get_user_actions_today_day_bounds_witness :
    sampleDoc 1 "u1" 1 "x" 259199999999 ∈
      (get_user_actions_today dayStore "u1" "LIKE" dayRef).1 ∧
    sampleDoc 2 "u1" 1 "x" 259200000000 ∉
      (get_user_actions_today dayStore "u1" "LIKE" dayRef).1 :=
  ⟨(get_user_actions_today_day_bounds dayStore "u1" "LIKE" dayRef
      (sampleDoc 1 "u1" 1 "x" 259199999999)).2.2.1
      (by decide) (by decide) (by decide) (by decide),
   (get_user_actions_today_day_bounds dayStore "u1" "LIKE" dayRef
      (sampleDoc 2 "u1" 1 "x" 259200000000)).2.2.2 (by decide)⟩

/-- Claim C5: for every store state, positive `limit` and optional domain,
`get_top_users` succeeds and its output is exactly the first `limit`
entries of an arrangement of ALL the per-user groups (summed `points`
grouped by `user.id` over the matched transactions) that is sorted
non-increasing by `total_points`. That arrangement is a permutation of the
group list, the output is all of it whenever there are at most `limit`
groups (completeness), its length is `min limit #groups`, and every
retained entry has a total at least as large as every dropped one
(maximality) — so with pairwise-distinct totals the output is precisely the
`limit` highest totals in descending order. -/
theorem get_top_users_sorted_truncated (s : Store) (limit : Int)
    (dom : Option String) (hpos : 0 < limit) :
    ∃ sorted : List TopGroup,
      sorted.Perm (groupByUser (s.docs.filter (topMatch dom))) ∧
      List.Chain' (fun a b => b.total_points ≤ a.total_points) sorted ∧
      (get_top_users s limit dom).1 = Except.ok (sorted.take limit.toNat) ∧
      (sorted.take limit.toNat).length = min limit.toNat sorted.length ∧
      ((groupByUser (s.docs.filter (topMatch dom))).length ≤ limit.toNat →
        sorted.take limit.toNat = sorted) ∧
      (∀ g ∈ sorted.take limit.toNat, ∀ g' ∈ sorted.drop limit.toNat,
        g'.total_points ≤ g.total_points) := by
  have hp : List.Pairwise totalDesc
      (List.insertionSort totalDesc (groupByUser (s.docs.filter (topMatch dom)))) :=
    List.sorted_insertionSort totalDesc _
  refine ⟨List.insertionSort totalDesc (groupByUser (s.docs.filter (topMatch dom))),
    List.perm_insertionSort totalDesc _, List.Pairwise.chain' hp, ?_, ?_, ?_, ?_⟩
  · dsimp only [get_top_users]
    rw [if_neg (not_le.mpr hpos)]
  · exact List.length_take _ _
  · intro h
    apply List.take_of_length_le
    rw [List.length_insertionSort]
    exact h
  · intro g hg g' hg'
    have hsplit : List.Pairwise totalDesc
        ((List.insertionSort totalDesc
            (groupByUser (s.docs.filter (topMatch dom)))).take limit.toNat ++
          (List.insertionSort totalDesc
            (groupByUser (s.docs.filter (topMatch dom)))).drop limit.toNat) := by
      rw [List.take_append_drop]
      exact hp
    exact (List.pairwise_append.mp hsplit).2.2 g hg g' hg'

/-- Witness for claim C5, including the spec's concrete instance: on five
users with pairwise-distinct totals, `limit = 3` returns exactly the three
highest totals in descending order. -/
theorem get_top_users_sorted_truncated_witness :
    (0 : Int) < 3 ∧
    (∃ sorted : List TopGroup,
      sorted.Perm (groupByUser (topStore.docs.filter (topMatch none))) ∧
      List.Chain' (fun a b => b.total_points ≤ a.total_points) sorted ∧
      (get_top_users topStore 3 none).1 = Except.ok (sorted.take (3 : Int).toNat) ∧
      (sorted.take (3 : Int).toNat).length = min (3 : Int).toNat sorted.length ∧
      ((groupByUser (topStore.docs.filter (topMatch none))).length ≤ (3 : Int).toNat →
        sorted.take (3 : Int).toNat = sorted) ∧
      (∀ g ∈ sorted.take (3 : Int).toNat, ∀ g' ∈ sorted.drop (3 : Int).toNat,
        g'.total_points ≤ g.total_points)) ∧
    (get_top_users topStore 3 none).1 =
      Except.ok [⟨"u5", 50, uref "u5"⟩, ⟨"u4", 40, uref "u4"⟩,
        ⟨"u3", 30, uref "u3"⟩] :=
  ⟨by decide, get_top_users_sorted_truncated topStore 3 none (by decide), by decide⟩

/-- Claim C6: with no date bounds, a user's total karma equals the sum of
the by-domain totals over the domains in which the user has at least one
transaction. -/
theorem get_user_karma_domain_additivity (s : Store) (user_id : String) :
    (get_user_karma s user_id none none).1 =
      ((userDomains s user_id).map
        (fun dm => (get_user_karma_by_domain s user_id dm none none).1)).sum := by
  have hfun : (fun dm => (get_user_karma_by_domain s user_id dm none none).1) =
      fun dm => (((s.docs.filter (fun d => d.user.id == user_id)).filter
        (fun d => d.domain == dm)).map (fun d => d.points)).sum := by
    funext dm
    rw [get_user_karma_by_domain_fst, filter_karmaDomainMatch_none]
  rw [get_user_karma_fst, karmaMatch_none, hfun]
  dsimp only [userDomains]
  exact (sum_fiberwise (fun d => d.domain) (fun d => d.points)
    (s.docs.filter (fun d => d.user.id == user_id))
    (((s.docs.filter (fun d => d.user.id == user_id)).map (fun d => d.domain)).dedup)
    (List.nodup_dedup _)
    (fun a ha => List.mem_dedup.mpr (List.mem_map_of_mem _ ha))).symm

/-- Claim C7 (amended): `create_transaction` returns an entity whose `id`
is the freshly assigned identifier (distinct from every persisted one, and
always present), whose `created_at` is the first clock reading — hence at
least the time observed just before the call — and whose `updated_at` is
the second clock reading, so `created_at ≤ updated_at`. Equality of the two
timestamps is NOT guaranteed: the source stamps them with two separate
`datetime.now(UTC)` calls. -/
theorem create_transaction_id_and_timestamps (s : Store)
    (tx : KarmaTransactionCreate) (t0 t1 t2 : Nat)
    (hfresh : ∀ d ∈ s.docs, d.id ≠ s.nextId) (h01 : t0 ≤ t1) (h12 : t1 ≤ t2) :
    (create_transaction s tx t1 t2).1.id = s.nextId ∧
    (∀ d ∈ s.docs, d.id ≠ (create_transaction s tx t1 t2).1.id) ∧
    t0 ≤ (create_transaction s tx t1 t2).1.created_at ∧
    (create_transaction s tx t1 t2).1.created_at = t1 ∧
    (create_transaction s tx t1 t2).1.updated_at = t2 ∧
    (create_transaction s tx t1 t2).1.created_at ≤
      (create_transaction s tx t1 t2).1.updated_at :=
  ⟨rfl, hfresh, h01, rfl, rfl, h12⟩

/-- Witness for the amended claim C7 at a concrete store and clock
readings `3 ≤ 7`. -/
theorem create_transaction_id_and_timestamps_witness :
    (∀ d ∈ topStore.docs, d.id ≠ topStore.nextId) ∧
    (0 : Nat) ≤ 3 ∧ (3 : Nat) ≤ 7 ∧
    ((create_transaction topStore sampleCreate 3 7).1.id = topStore.nextId ∧
     (∀ d ∈ topStore.docs,
        d.id ≠ (create_transaction topStore sampleCreate 3 7).1.id) ∧
     0 ≤ (create_transaction topStore sampleCreate 3 7).1.created_at ∧
     (create_transaction topStore sampleCreate 3 7).1.created_at = 3 ∧
     (create_transaction topStore sampleCreate 3 7).1.updated_at = 7 ∧
     (create_transaction topStore sampleCreate 3 7).1.created_at ≤
       (create_transaction topStore sampleCreate 3 7).1.updated_at) :=
  ⟨by decide, by decide, by decide,
   create_transaction_id_and_timestamps topStore sampleCreate 0 3 7
     (by decide) (by decide) (by decide)⟩

/-- Counterexample to claim C7 as stated: in an execution whose two
`datetime.now(UTC)` readings are the (monotone) instants `0` and then `1`,
the returned entity has `created_at = 0 ≠ 1 = updated_at`, so the claimed
equality of the two timestamps fails. -/
theorem create_transaction_timestamps_not_equal :
    (0 : Nat) ≤ 0 ∧ (0 : Nat) ≤ 1 ∧
    (create_transaction topStore sampleCreate 0 1).1.created_at ≠
      (create_transaction topStore sampleCreate 0 1).1.updated_at := by
  decide

/-- Claim C8 (amended): for every store state and non-positive `limit`,
`get_top_users` does not return an empty sequence — the store's `$limit`
stage rejects non-positive values, so the call fails with the store's
"the limit must be positive" error. -/
theorem get_top_users_nonpositive_limit_error (s : Store) (limit : Int)
    (dom : Option String) (h : limit ≤ 0) :
    (get_top_users s limit dom).1 = Except.error "the limit must be positive" := by
  dsimp only [get_top_users]
  rw [if_pos h]

/-- Witness for the amended claim C8 at `limit = 0`. -/
theorem get_top_users_nonpositive_limit_error_witness :
    (0 : Int) ≤ 0 ∧
    (get_top_users topStore 0 none).1 =
      Except.error "the limit must be positive" :=
  ⟨by decide, get_top_users_nonpositive_limit_error topStore 0 none (by decide)⟩

/-- Counterexample to claim C8 as stated: at `limit = 0` on a concrete
store the result is the store's error, not the empty sequence. -/
theorem get_top_users_zero_limit_not_empty :
    (get_top_users topStore 0 none).1 ≠ Except.ok [] := by
  decide

/-- Claim C9: every read operation leaves the store unchanged, and
`create_transaction` appends exactly one record to the end of the log,
leaving every existing record in place (and advances the id generator). -/
theorem reads_pure_create_appends (s : Store) (uid dm atype : String)
    (sd ed : Option Nat) (date : Nat) (limit : Int) (dom : Option String)
    (tx : KarmaTransactionCreate) (t1 t2 : Nat) :
    (get_user_karma s uid sd ed).2 = s ∧
    (get_user_karma_by_domain s uid dm sd ed).2 = s ∧
    (get_user_actions s uid sd ed).2 = s ∧
    (get_user_actions_by_domain s uid dm sd ed).2 = s ∧
    (get_user_actions_today s uid atype date).2 = s ∧
    (get_top_users s limit dom).2 = s ∧
    (create_transaction s tx t1 t2).2.docs =
      s.docs ++ [(create_transaction s tx t1 t2).1] ∧
    (create_transaction s tx t1 t2).2.nextId = s.nextId + 1 :=
  ⟨rfl, rfl, rfl, rfl, rfl, rfl, rfl, rfl⟩

/-- Claim C10: passing the empty string as the `domain` of `get_top_users`
is identical to passing no domain at all — `if domain:` treats the empty
string as falsy, so no domain filter is added and every domain is
aggregated. -/
theorem get_top_users_empty_domain_no_filter (s : Store) (limit : Int) :
    get_top_users s limit (some "") = get_top_users s limit none := rfl

end KarmaApi
